import Mathlib

/-!
Shallow embedding of the Fastly Googlebot-verification service
(`src/main.rs`) and proofs about its specification claims.

The service exposes `GET /verify?ip=<ipv4>`: it parses the `ip` query
parameter as an IPv4 address, builds the reverse-lookup name
`d.c.b.a.in-addr.arpa`, issues a single PTR query to a DNS-over-HTTPS
resolver, and classifies the first answer entry's `data` hostname by
exact string-suffix match against `.google.com.` / `.googlebot.com.`.

External effects are made explicit inputs:
  * the resolver backend is a function from the request URL to a
    `ResolverResult` (transport error, or an HTTP status plus the
    result of `serde_json::from_str` on the body — `none` means the
    body was not parseable JSON);
  * a Rust panic (the `.unwrap()` on the parse result in
    `handle_lookup_request`) is modelled as the `HFail.panicked`
    variant, which `main` does NOT catch (only `?`-propagated
    `fastly::Error` values reach `main`'s `Err` arm).
-/

namespace GooglebotVerify

/-- JSON values as produced by `serde_json` parsing. Numeric payloads are
restricted to integers; no code path of this program inspects a number. -/
inductive Json where
  | null : Json
  | bool (b : Bool) : Json
  | num (n : Int) : Json
  | str (s : String) : Json
  | arr (xs : List Json) : Json
  | obj (kvs : List (String × Json)) : Json

/-- Model of `serde_json::Value`'s `Index` by string key (`value["k"]`):
for an object, the value at the first matching key, `Null` if absent;
`Null` for every non-object. -/
def Json.getKey : Json → String → Json
  | .obj kvs, k => ((kvs.find? (fun p => p.fst == k)).map Prod.snd).getD .null
  | _, _ => .null

/-- Model of `serde_json::Value`'s `Index` by array position (`value[0]`):
for an array, the element at that position, `Null` if out of bounds;
`Null` for every non-array. -/
def Json.getIdx : Json → Nat → Json
  | .arr xs, i => xs.getD i .null
  | _, _ => .null

/-- Model of `serde_json::Value::as_str`. -/
def Json.as_str : Json → Option String
  | .str s => some s
  | _ => none

/-- Model of Rust `str::ends_with` with a string pattern: exact suffix
match (the patterns used here are ASCII, so char-level suffix agrees
with Rust's byte-level suffix). -/
def ends_with (s pat : String) : Bool :=
  pat.data.isSuffixOf s.data

/-- The `Outcome` enum of `src/main.rs`. -/
inductive Outcome where
  | MissingQueryString : Outcome
  | InvalidQueryString : Outcome
  | GoogleDnsFailed : Outcome
  | IsGoogleBot (ptr_record : String) : Outcome
  | NotGoogleBot (ptr_record : String) : Outcome
  | NoPtrAnswer : Outcome
deriving DecidableEq

/-- Response bodies: the JSON object built by `with_body_json`, or a
plain-text body (`with_body_text_plain` / `with_body`). -/
inductive Body where
  | json (j : Json) : Body
  | text (s : String) : Body

/-- The observable parts of a `fastly::Response`: status code, headers
(in insertion order), body. -/
structure Response where
  status : Nat
  headers : List (String × String)
  body : Body

/-- Model of `impl From<Outcome> for Response` (lines 28-77 of `src/main.rs`):
the `(result, reason, status)` triple, rendered with `content-type:
application/json`, the `x-googlebot-verified` header set to `result`,
and the JSON body `{"result": result, "reason": reason}`. -/
def Outcome.toResponse (outcome : Outcome) : Response :=
  let rrs : String × String × Nat :=
    match outcome with
    | .MissingQueryString => ("error", "Missing query string ?ip=a.b.c.d", 400)
    | .InvalidQueryString => ("error", "Invalid query string ?ip=a.b.c.d", 400)
    | .GoogleDnsFailed => ("error", "Google DNS failed", 502)
    | .IsGoogleBot ptr_record => ("yes", "Reverse lookup is " ++ ptr_record, 200)
    | .NotGoogleBot ptr_record =>
        ("no", "Reverse lookup is " ++ ptr_record ++
          ", not an *.google.com or *.googlebot.com domain.", 200)
    | .NoPtrAnswer => ("no", "No PTR Answer for this reverse lookup.", 200)
  { status := rrs.2.2,
    headers := [("content-type", "application/json"),
                ("x-googlebot-verified", rrs.1)],
    body := .json (.obj [("result", .str rrs.1), ("reason", .str rrs.2.1)]) }

/-- The result tag of a rendered response: the value of its
`x-googlebot-verified` header. -/
def Response.resultTag (r : Response) : Option String :=
  (r.headers.find? (fun p => p.fst == "x-googlebot-verified")).map Prod.snd

/-- The classification of the parsed resolver body (lines 125-140 of
`src/main.rs`): inspect `dns_data["Answer"][0]["data"].as_str()`; a
string hostname is `IsGoogleBot` exactly when it ends with
`.google.com.` or `.googlebot.com.`, otherwise `NotGoogleBot`; anything
non-string (including an absent or empty `Answer`) is `NoPtrAnswer`. -/
def classify (dns_data : Json) : Outcome :=
  match (((dns_data.getKey "Answer").getIdx 0).getKey "data").as_str with
  | some domain =>
      if ends_with domain ".google.com." || ends_with domain ".googlebot.com." then
        Outcome.IsGoogleBot domain
      else
        Outcome.NotGoogleBot domain
  | none => Outcome.NoPtrAnswer

/-- Split a character list at every `'.'` (the helper for IPv4 parsing;
mirrors how the dotted-quad text decomposes into octet groups). -/
def splitDots : List Char → List (List Char)
  | [] => [[]]
  | c :: rest =>
      if c = '.' then
        [] :: splitDots rest
      else
        match splitDots rest with
        | [] => [[c]]
        | g :: gs => (c :: g) :: gs

/-- Model of parsing one octet group of Rust's `Ipv4Addr::from_str`: a
non-empty run of ASCII digits, no leading zero (except the single digit
`0`), value at most 255. -/
def parseOctet (cs : List Char) : Option Nat :=
  match cs with
  | [] => none
  | ['0'] => some 0
  | '0' :: _ :: _ => none
  | _ =>
      if cs.all Char.isDigit then
        let n := cs.foldl (fun acc c => acc * 10 + (c.toNat - 48)) 0
        if n ≤ 255 then some n else none
      else none

/-- Model of `ip.parse::<Ipv4Addr>()` (Rust std): exactly four octet
groups separated by single dots, each a valid octet; the result keeps
the octets in their textual (standard dotted-quad) order, matching
`Ipv4Addr::octets()`. -/
def parseIpv4 (s : String) : Option (Nat × Nat × Nat × Nat) :=
  match (splitDots s.data).map parseOctet with
  | [some a, some b, some c, some d] => some (a, b, c, d)
  | _ => none

/-- The lookup URL built at lines 111-114 of `src/main.rs`:
`format!("https://dns.google.com/resolve?name={}.{}.{}.{}.in-addr.arpa&type=PTR",
o[3], o[2], o[1], o[0])` — octets in reverse order. -/
def lookupUri (o : Nat × Nat × Nat × Nat) : String :=
  "https://dns.google.com/resolve?name=" ++
    toString o.2.2.2 ++ "." ++ toString o.2.2.1 ++ "." ++
    toString o.2.1 ++ "." ++ toString o.1 ++ ".in-addr.arpa&type=PTR"

/-- What one `send` to the resolver backend can yield: a transport-level
error (the `Err` of `Request::send`, propagated by `?`), or an HTTP
response with a status code and a body. The body is carried as the
result of `serde_json::from_str` on the body text: `some v` when the
body parses to the JSON value `v`, `none` when it is not parseable. -/
inductive ResolverResult where
  | sendError (msg : String) : ResolverResult
  | response (status : Nat) (body : Option Json) : ResolverResult

/-- Model of `StatusCode::is_success`: 2xx. -/
def isSuccessStatus (s : Nat) : Bool :=
  200 ≤ s && s ≤ 299

/-- How `handle_lookup_request` can fail short of returning a response:
an `Err` propagated by `?` (caught by `main` and rendered as a 400
plain-text body starting with `ERROR:`), or a Rust panic (NOT caught by
`main`; the request aborts). -/
inductive HFail where
  | err (msg : String) : HFail
  | panicked (msg : String) : HFail
deriving DecidableEq

/-- The panic payload of the `.unwrap()` at line 124 of `src/main.rs`
(message text abbreviated; only the fact of panicking matters). -/
def unwrapPanicMsg : String :=
  "called Result::unwrap() on an Err value"

/-- The observable parts of an inbound `fastly::Request`: method, path,
and the query parameters as decoded by `get_query` (a key-value list). -/
structure Request where
  method : String
  path : String
  query : List (String × String)

/-- Model of `HashMap::get` after `req.get_query()?` collected the
query pairs into a `HashMap` (a later occurrence of a key overwrites an
earlier one, hence the lookup from the right). -/
def getQueryParam (q : List (String × String)) (k : String) : Option String :=
  (q.reverse.find? (fun p => p.fst == k)).map Prod.snd

/-- Model of `handle_lookup_request` (lines 96-146 of `src/main.rs`). The
`resolver` argument is the backend: the function from the URL actually
sent to the result of that single send (exactly one lookup is issued,
and only on the valid-IP path). -/
def handle_lookup_request (req : Request)
    (resolver : String → ResolverResult) : Except HFail Response :=
  match getQueryParam req.query "ip" with
  | none => .ok Outcome.MissingQueryString.toResponse
  | some ip =>
      match parseIpv4 ip with
      | some ipv4_octets =>
          match resolver (lookupUri ipv4_octets) with
          | .sendError msg => .error (.err msg)
          | .response status body =>
              if !isSuccessStatus status then
                .ok Outcome.GoogleDnsFailed.toResponse
              else
                match body with
                | none => .error (.panicked unwrapPanicMsg)
                | some dns_data => .ok (classify dns_data).toResponse
      | none => .ok Outcome.InvalidQueryString.toResponse

/-- A response produced by `with_body_text_plain`. -/
def plainTextResponse (status : Nat) (s : String) : Response :=
  { status := status,
    headers := [("content-type", "text/plain; charset=utf-8")],
    body := .text s }

/-- The fixed 404 response of `main`'s catch-all arm. -/
def notFoundResponse : Response :=
  { status := 404,
    headers := [],
    body := .text "Either the page you requested could not be found or the HTTP method is not GET.\n" }

/-- Model of `main` (lines 80-94 of `src/main.rs`): route `GET /verify` to
`handle_lookup_request`; render a propagated `fastly::Error` as a 400
plain-text body starting with `ERROR:`; anything else gets the fixed
404. A panic
inside the handler is not caught: the run ends in `.error` (the wasm
guest traps; no response of the program is produced). -/
def main (req : Request) (resolver : String → ResolverResult) :
    Except String Response :=
  if req.method == "GET" && req.path == "/verify" then
    match handle_lookup_request req resolver with
    | .ok response => .ok response
    | .error (.err msg) => .ok (plainTextResponse 400 ("ERROR: " ++ msg))
    | .error (.panicked msg) => .error msg
  else
    .ok notFoundResponse

/-- Modelled from the spec's words (§3, ReverseQueryName): the string
`d4.d3.d2.d1.in-addr.arpa` where `d1..d4` are the Address's octets in
standard dotted-quad order (so the name lists them least-significant
first). Used only to compare the code's URL construction against the
spec's form. -/
def specReverseQueryName (d1 d2 d3 d4 : Nat) : String :=
  toString d4 ++ "." ++ toString d3 ++ "." ++ toString d2 ++ "." ++
    toString d1 ++ ".in-addr.arpa"

/-- The status of a terminated run: `some` status when the program
produced a response, `none` when it aborted (panicked). -/
def exceptStatus : Except String Response → Option Nat
  | .ok r => some r.status
  | .error _ => none

/-- Whether a run produced a response at all. -/
def isOkResult : Except String Response → Bool
  | .ok _ => true
  | .error _ => false

/-- A resolver body whose first answer hostname is NOT under the
authorized suffixes, though its name contains `google.com`. -/
def evilAnswerBody : Json :=
  .obj [("Answer", .arr [.obj [("data", .str "sub.evilgoogle.com.")]])]

/-- The spec's example resolver body for a genuine Googlebot PTR. -/
def googlebotAnswerBody : Json :=
  .obj [("Answer", .arr [.obj [("data", .str "crawl-66-249-66-1.googlebot.com.")]])]

/-- Same first answer entry as `googlebotAnswerBody`, plus a second
entry with a hostname outside the authorized suffixes. -/
def googlebotAnswerBodyTwo : Json :=
  .obj [("Answer", .arr [.obj [("data", .str "crawl-66-249-66-1.googlebot.com.")],
                         .obj [("data", .str "evil.example.com.")]])]

/-- A well-formed `GET /verify?ip=1.2.3.4` request. -/
def demoRequest : Request :=
  { method := "GET", path := "/verify", query := [("ip", "1.2.3.4")] }

/-- C1: for every successful resolver response whose `Answer` array is
non-empty and whose first entry's `data` field is a string `h`, the
classification is `IsGoogleBot h` (the spec's VerifiedBot) iff `h` ends
with the exact suffix `.google.com.` or `.googlebot.com.`
(case-sensitive, trailing-dot-inclusive string suffix match), and
`NotGoogleBot h` (UnverifiedBot) otherwise. -/
theorem C1_suffix_classification (j e : Json) (rest : List Json) (h : String)
    (hA : j.getKey "Answer" = .arr (e :: rest))
    (hD : (e.getKey "data").as_str = some h) :
    (classify j = .IsGoogleBot h ↔
      (ends_with h ".google.com." || ends_with h ".googlebot.com.") = true)
    ∧ ((ends_with h ".google.com." || ends_with h ".googlebot.com.") = false →
      classify j = .NotGoogleBot h) := by
  have hcl : classify j =
      if ends_with h ".google.com." || ends_with h ".googlebot.com." then
        Outcome.IsGoogleBot h
      else Outcome.NotGoogleBot h := by
    simp [classify, hA, Json.getIdx, List.getD_cons_zero, hD]
  cases hb : ends_with h ".google.com." || ends_with h ".googlebot.com." <;>
    simp [hcl, hb]

/-- C1 witness: the hostname `sub.evilgoogle.com.` (whose suffix is
`lgoogle.com.`, not `.google.com.`) classifies as `NotGoogleBot`. -/
theorem C1_suffix_classification_witness :
    classify evilAnswerBody = .NotGoogleBot "sub.evilgoogle.com." :=
  (C1_suffix_classification evilAnswerBody
    (.obj [("data", .str "sub.evilgoogle.com.")]) [] "sub.evilgoogle.com."
    rfl rfl).2 (by decide)

/-- C5: a successful resolver response with no `Answer` array (the
serde index then yields `Null`, in particular for the body `{}`) or
with an empty one classifies as `NoPtrAnswer` (the spec's NoPtrRecord),
rendered with status 200 and result tag `no`. -/
theorem C5_no_answer (j : Json)
    (hyp : j.getKey "Answer" = .null ∨ j.getKey "Answer" = .arr []) :
    classify j = .NoPtrAnswer
    ∧ Outcome.NoPtrAnswer.toResponse.status = 200
    ∧ Outcome.NoPtrAnswer.toResponse.resultTag = some "no" := by
  refine ⟨?_, rfl, rfl⟩
  rcases hyp with h | h <;> (unfold classify; rw [h]; rfl)

/-- C5 witness: the resolver body `{}` (no `Answer` key) yields
`NoPtrAnswer`. -/
theorem C5_no_answer_witness :
    classify (.obj []) = .NoPtrAnswer
    ∧ Outcome.NoPtrAnswer.toResponse.status = 200
    ∧ Outcome.NoPtrAnswer.toResponse.resultTag = some "no" :=
  C5_no_answer (.obj []) (Or.inl rfl)

/-- C6: two successful resolver responses with the same first `Answer`
entry classify identically, whatever the entries after the first are:
only the first answer entry is ever inspected. -/
theorem C6_first_entry_only (j1 j2 e : Json) (rest1 rest2 : List Json)
    (h1 : j1.getKey "Answer" = .arr (e :: rest1))
    (h2 : j2.getKey "Answer" = .arr (e :: rest2)) :
    classify j1 = classify j2 := by
  simp [classify, h1, h2, Json.getIdx, List.getD_cons_zero]

/-- C6 witness: adding a second (hostile) answer entry after a
Googlebot first entry does not change the classification. -/
theorem C6_first_entry_only_witness :
    classify googlebotAnswerBody = classify googlebotAnswerBodyTwo :=
  C6_first_entry_only googlebotAnswerBody googlebotAnswerBodyTwo
    (.obj [("data", .str "crawl-66-249-66-1.googlebot.com.")])
    [] [.obj [("data", .str "evil.example.com.")]] rfl rfl

/-- C10: a successful resolver response whose `Answer` array is
non-empty but whose first entry has no string `data` field (absent
field, or a non-string value) classifies as `NoPtrAnswer`, rendered
200 with result tag `no` — never an error, never `IsGoogleBot` or
`NotGoogleBot`. -/
theorem C10_malformed_first_entry (j e : Json) (rest : List Json)
    (hA : j.getKey "Answer" = .arr (e :: rest))
    (hD : (e.getKey "data").as_str = none) :
    classify j = .NoPtrAnswer
    ∧ Outcome.NoPtrAnswer.toResponse.status = 200
    ∧ Outcome.NoPtrAnswer.toResponse.resultTag = some "no" := by
  refine ⟨?_, rfl, rfl⟩
  simp [classify, hA, Json.getIdx, List.getD_cons_zero, hD]

/-- C10 witness: a first answer entry whose `data` is the number 5
yields `NoPtrAnswer`. -/
theorem C10_malformed_first_entry_witness :
    classify (.obj [("Answer", .arr [.obj [("data", .num 5)]])]) = .NoPtrAnswer
    ∧ Outcome.NoPtrAnswer.toResponse.status = 200
    ∧ Outcome.NoPtrAnswer.toResponse.resultTag = some "no" :=
  C10_malformed_first_entry (.obj [("Answer", .arr [.obj [("data", .num 5)]])])
    (.obj [("data", .num 5)]) [] rfl rfl

/-- C2: for every string that parses as an IPv4 address with octets
`d1.d2.d3.d4`, the reverse-DNS query name inside the constructed lookup
URL is exactly `d4.d3.d2.d1.in-addr.arpa` (octets reversed), and for
`1.2.3.4` that name is exactly `4.3.2.1.in-addr.arpa`. -/
theorem C2_reverse_query_name :
    (∀ s d1 d2 d3 d4, parseIpv4 s = some (d1, d2, d3, d4) →
      lookupUri (d1, d2, d3, d4) =
        "https://dns.google.com/resolve?name=" ++
          specReverseQueryName d1 d2 d3 d4 ++ "&type=PTR")
    ∧ parseIpv4 "1.2.3.4" = some (1, 2, 3, 4)
    ∧ specReverseQueryName 1 2 3 4 = "4.3.2.1.in-addr.arpa"
    ∧ lookupUri (1, 2, 3, 4) =
        "https://dns.google.com/resolve?name=4.3.2.1.in-addr.arpa&type=PTR" := by
  refine ⟨?_, rfl, rfl, rfl⟩
  intro s d1 d2 d3 d4 _
  have hlit : ".in-addr.arpa" ++ "&type=PTR" = ".in-addr.arpa&type=PTR" := rfl
  simp only [lookupUri, specReverseQueryName, String.append_assoc, hlit]

/-- C2 witness: the general conjunct applied at the address `1.2.3.4`. -/
theorem C2_reverse_query_name_witness :
    lookupUri (1, 2, 3, 4) =
      "https://dns.google.com/resolve?name=" ++
        specReverseQueryName 1 2 3 4 ++ "&type=PTR" :=
  C2_reverse_query_name.1 "1.2.3.4" 1 2 3 4 rfl

/-- C7: a `GET /verify` request whose `ip` parameter fails IPv4 parsing
yields `InvalidQueryString`, rendered 400 with result tag `error`; the
conclusion holds for every resolver and never consults it, so no lookup
is issued. -/
theorem C7_invalid_ip (req : Request) (resolver : String → ResolverResult)
    (s : String)
    (hm : req.method = "GET") (hp : req.path = "/verify")
    (hip : getQueryParam req.query "ip" = some s)
    (hbad : parseIpv4 s = none) :
    main req resolver = .ok Outcome.InvalidQueryString.toResponse
    ∧ Outcome.InvalidQueryString.toResponse.status = 400
    ∧ Outcome.InvalidQueryString.toResponse.resultTag = some "error" := by
  refine ⟨?_, rfl, rfl⟩
  simp [main, hm, hp, handle_lookup_request, hip, hbad]

/-- C7 witness: `ip=not-an-ip` yields the `InvalidQueryString`
response, for a resolver that would fail if it were consulted. -/
theorem C7_invalid_ip_witness :
    main { method := "GET", path := "/verify", query := [("ip", "not-an-ip")] }
        (fun _ => .sendError "never sent") =
      .ok Outcome.InvalidQueryString.toResponse
    ∧ Outcome.InvalidQueryString.toResponse.status = 400
    ∧ Outcome.InvalidQueryString.toResponse.resultTag = some "error" :=
  C7_invalid_ip _ _ "not-an-ip" rfl rfl rfl rfl

/-- C8: a `GET /verify` request whose query has no `ip` key — whatever
other parameters are present — yields `MissingQueryString`, rendered
400 with result tag `error`. -/
theorem C8_missing_ip (req : Request) (resolver : String → ResolverResult)
    (hm : req.method = "GET") (hp : req.path = "/verify")
    (hip : getQueryParam req.query "ip" = none) :
    main req resolver = .ok Outcome.MissingQueryString.toResponse
    ∧ Outcome.MissingQueryString.toResponse.status = 400
    ∧ Outcome.MissingQueryString.toResponse.resultTag = some "error" := by
  refine ⟨?_, rfl, rfl⟩
  simp [main, hm, hp, handle_lookup_request, hip]

/-- C8 witness: a query carrying only unrelated parameters yields the
`MissingQueryString` response. -/
theorem C8_missing_ip_witness :
    main { method := "GET", path := "/verify",
           query := [("foo", "bar"), ("address", "1.2.3.4")] }
        (fun _ => .sendError "never sent") =
      .ok Outcome.MissingQueryString.toResponse
    ∧ Outcome.MissingQueryString.toResponse.status = 400
    ∧ Outcome.MissingQueryString.toResponse.resultTag = some "error" :=
  C8_missing_ip _ _ rfl rfl rfl

/-- C9: the resolver body `{"Answer":[{"data":
"crawl-66-249-66-1.googlebot.com."}]}` classifies as `IsGoogleBot`, and
its rendered response has status 200, header `x-googlebot-verified:
yes`, and the JSON body with `result` `yes` and `reason` `Reverse
lookup is crawl-66-249-66-1.googlebot.com.`; the full `GET /verify`
run renders exactly that response. -/
theorem C9_googlebot_example :
    classify googlebotAnswerBody = .IsGoogleBot "crawl-66-249-66-1.googlebot.com."
    ∧ (classify googlebotAnswerBody).toResponse =
        { status := 200,
          headers := [("content-type", "application/json"),
                      ("x-googlebot-verified", "yes")],
          body := .json (.obj [("result", .str "yes"),
            ("reason", .str "Reverse lookup is crawl-66-249-66-1.googlebot.com.")]) }
    ∧ main { method := "GET", path := "/verify", query := [("ip", "66.249.66.1")] }
        (fun _ => .response 200 (some googlebotAnswerBody)) =
      .ok { status := 200,
            headers := [("content-type", "application/json"),
                        ("x-googlebot-verified", "yes")],
            body := .json (.obj [("result", .str "yes"),
              ("reason", .str "Reverse lookup is crawl-66-249-66-1.googlebot.com.")]) } :=
  ⟨rfl, rfl, rfl⟩

/-- C3 counterexample: with a transport-level send failure (the
resolver never responds), the run of `main` renders the propagated
error as the plain-text 400 `ERROR:` response — not the 502
`GoogleDnsFailed` outcome the claim requires. -/
theorem C3_counterexample :
    main demoRequest (fun _ => .sendError "boom") =
      .ok (plainTextResponse 400 "ERROR: boom")
    ∧ exceptStatus (main demoRequest (fun _ => .sendError "boom")) = some 400
    ∧ exceptStatus (.ok Outcome.GoogleDnsFailed.toResponse) = some 502
    ∧ main demoRequest (fun _ => .sendError "boom") ≠
        .ok Outcome.GoogleDnsFailed.toResponse := by
  refine ⟨rfl, rfl, rfl, fun hc => ?_⟩
  have h2 := congrArg exceptStatus hc
  exact absurd h2 (by decide)

/-- C3 amended: only a non-success HTTP status from the resolver is
classified as `GoogleDnsFailed` (UpstreamResolutionFailed), rendered
502 with result tag `error`; a transport-level send failure instead
propagates as a request-level failure that `main` renders as a 400
plain-text `ERROR:` body. Either way the single `send` is the only
lookup (no retry). -/
theorem C3_amended_upstream_failure (req : Request)
    (resolver : String → ResolverResult) (s : String)
    (o : Nat × Nat × Nat × Nat)
    (hm : req.method = "GET") (hp : req.path = "/verify")
    (hip : getQueryParam req.query "ip" = some s)
    (hv : parseIpv4 s = some o) :
    (∀ status body, resolver (lookupUri o) = .response status body →
      isSuccessStatus status = false →
      main req resolver = .ok Outcome.GoogleDnsFailed.toResponse
      ∧ Outcome.GoogleDnsFailed.toResponse.status = 502
      ∧ Outcome.GoogleDnsFailed.toResponse.resultTag = some "error")
    ∧ (∀ msg, resolver (lookupUri o) = .sendError msg →
      main req resolver = .ok (plainTextResponse 400 ("ERROR: " ++ msg))) := by
  constructor
  · intro status body hres hfail
    refine ⟨?_, rfl, rfl⟩
    simp [main, hm, hp, handle_lookup_request, hip, hv, hres, hfail]
  · intro msg hres
    simp [main, hm, hp, handle_lookup_request, hip, hv, hres]

/-- C3 amended witness: resolver status 503 yields the 502
`GoogleDnsFailed` response; a transport error yields the 400
plain-text `ERROR:` response. -/
theorem C3_amended_upstream_failure_witness :
    main demoRequest (fun _ => .response 503 (some (.obj []))) =
      .ok Outcome.GoogleDnsFailed.toResponse
    ∧ main demoRequest (fun _ => .sendError "boom") =
      .ok (plainTextResponse 400 ("ERROR: " ++ "boom")) :=
  ⟨((C3_amended_upstream_failure demoRequest _ "1.2.3.4" (1, 2, 3, 4)
        rfl rfl rfl rfl).1 503 (some (.obj [])) rfl rfl).1,
    (C3_amended_upstream_failure demoRequest _ "1.2.3.4" (1, 2, 3, 4)
        rfl rfl rfl rfl).2 "boom" rfl⟩

/-- C4 counterexample: with a success-status resolver response whose
body is not parseable JSON, the run aborts in the `.unwrap()` panic —
it produces no response at all, in particular not the 400 plain-text
`ERROR:` rendering the claim requires. -/
theorem C4_counterexample :
    main demoRequest (fun _ => .response 200 none) = .error unwrapPanicMsg
    ∧ isOkResult (main demoRequest (fun _ => .response 200 none)) = false
    ∧ main demoRequest (fun _ => .response 200 none) ≠
        .ok (plainTextResponse 400 ("ERROR: " ++ unwrapPanicMsg)) := by
  refine ⟨rfl, rfl, fun hc => ?_⟩
  have h2 := congrArg isOkResult hc
  exact absurd h2 (by decide)

/-- C4 amended: a success-status resolver response whose body is not
parseable JSON makes the handler panic at the `.unwrap()`; the panic is
not caught by `main`'s error arm, so the request aborts without the
program rendering any response (no modeled `Outcome`, and no 400
`ERROR:` body either). -/
theorem C4_amended_malformed_body (req : Request)
    (resolver : String → ResolverResult) (s : String)
    (o : Nat × Nat × Nat × Nat) (status : Nat)
    (hm : req.method = "GET") (hp : req.path = "/verify")
    (hip : getQueryParam req.query "ip" = some s)
    (hv : parseIpv4 s = some o)
    (hres : resolver (lookupUri o) = .response status none)
    (hst : isSuccessStatus status = true) :
    main req resolver = .error unwrapPanicMsg
    ∧ isOkResult (main req resolver) = false := by
  have hmain : main req resolver = .error unwrapPanicMsg := by
    simp [main, hm, hp, handle_lookup_request, hip, hv, hres, hst]
  exact ⟨hmain, by rw [hmain]; rfl⟩

/-- C4 amended witness: a 200 response with an unparseable body makes
the demo request abort with the unwrap panic. -/
theorem C4_amended_malformed_body_witness :
    main demoRequest (fun _ => .response 200 none) = .error unwrapPanicMsg
    ∧ isOkResult (main demoRequest (fun _ => .response 200 none)) = false :=
  C4_amended_malformed_body demoRequest _ "1.2.3.4" (1, 2, 3, 4) 200
    rfl rfl rfl rfl rfl rfl

end GooglebotVerify
